import Mathlib

/-!
Verification development for the shine-identity service.

The definitions below are a shallow embedding of the Rust sources:
`src/auth/auth_session.rs` (session cookie decode/validate/encode),
`src/auth/oauth2/page_oauth2_auth.rs` and `src/auth/oidc/page_oidc_auth.rs`
(provider callback handlers), and `src/db/identity_manager.rs`
(identity store operations).

Machine integers are modelled as `Nat`/`Int`, timestamps as `Int`
(seconds), UUIDs as `Nat`, URLs as structured records, and external
collaborators (cookie signing, base64/key decoding, the OAuth2/OIDC token
exchange and user-info endpoints, the relational engine) as explicit
oracle parameters or as executable models of the SQL the source issues.
-/

/-! ## Basic types -/

/-- UUIDs are opaque 128-bit identifiers; modelled as `Nat`. -/
abbrev Uuid := Nat

/-- Timestamps (`chrono::DateTime<Utc>` / `time::OffsetDateTime`), modelled
as seconds since the epoch. -/
abbrev Timestamp := Int

/-! ## Session data model (`src/auth/auth_session.rs`) -/

/-- The authenticated user session payload (`CurrentUser` from
`shine_service`); only its `user_id` field is consulted by this core. -/
structure CurrentUser where
  user_id : Uuid
deriving DecidableEq, Repr

/-- `ExternalLogin` (auth_session.rs, lines 23-39): the in-flight
external-login flow state carried in the `eid` cookie. -/
structure ExternalLogin where
  pkce_code_verifier : String
  csrf_state : String
  nonce : Option String
  target_url : Option String
  error_url : Option String
  remember_me : Bool
  linked_user : Option CurrentUser
deriving DecidableEq, Repr

/-- `TokenLogin` (auth_session.rs, lines 41-49): the bearer-token session
carried in the `tid` cookie. -/
structure TokenLogin where
  user_id : Uuid
  token : String
  expires : Timestamp
deriving DecidableEq, Repr

/-- The three optional session components of an `AuthSession`
(auth_session.rs, lines 142-147), without the `meta` handle. -/
structure SessionTriple where
  user : Option CurrentUser
  external_login : Option ExternalLogin
  token_login : Option TokenLogin
deriving DecidableEq, Repr

/-- The cross-consistency validation performed inside
`AuthSession::from_request_parts` (auth_session.rs, lines 210-223),
transcribed statement by statement; `now` stands for `Utc::now()`. -/
def validateSession (user : Option CurrentUser) (external_login : Option ExternalLogin)
    (token_login : Option TokenLogin) (now : Timestamp) : SessionTriple :=
  let token_login :=
    if (token_login.map (fun t => decide (t.expires < now))).getD true then none
    else token_login
  let user :=
    if token_login.map (fun t => t.user_id) ≠ user.map (fun u => u.user_id) then none
    else user
  let external_login :=
    if (external_login.bind (fun e => e.linked_user)).map (fun l => l.user_id)
        ≠ user.map (fun u => u.user_id) then none
    else external_login
  ⟨user, external_login, token_login⟩

/-- Invariant 1 (spec §3): a token login whose `expires` is in the past is
discarded. -/
def applyTokenExpiry (token_login : Option TokenLogin) (now : Timestamp) :
    Option TokenLogin :=
  match token_login with
  | some t => if t.expires < now then none else some t
  | none => none

/-- Invariant 2 (spec §3): the user session is discarded when the
(possibly discarded) token login's user id does not match it. -/
def applyUserMatch (token_login : Option TokenLogin) (user : Option CurrentUser) :
    Option CurrentUser :=
  if token_login.map (fun t => t.user_id) ≠ user.map (fun u => u.user_id) then none
  else user

/-- Invariant 3 (spec §3): the external-login state is discarded when its
`linked_user`'s user id does not match the (possibly discarded) user
session's user id. -/
def applyExternalMatch (user : Option CurrentUser)
    (external_login : Option ExternalLogin) : Option ExternalLogin :=
  if (external_login.bind (fun e => e.linked_user)).map (fun l => l.user_id)
      ≠ user.map (fun u => u.user_id) then none
  else external_login

/-- The possible states of one inbound cookie before decoding. -/
inductive CookieInput (α : Type)
  | absent
  | invalidSignature
  | malformed
  | valid (a : α)
deriving DecidableEq, Repr

/-- Per-cookie decode (auth_session.rs, lines 188-196): the signed jar
yields nothing for an absent or signature-invalid cookie, and
`serde_json::from_str(..).ok()` turns a malformed payload into `None`. -/
def decodeComponent {α : Type} : CookieInput α → Option α
  | .valid a => some a
  | _ => none

/-- `AuthSession::from_request_parts` (auth_session.rs, lines 182-233):
decode the three cookies independently, then validate. The Rust rejection
type is `Infallible`; correspondingly this function is total. -/
def from_request_parts (u : CookieInput CurrentUser) (e : CookieInput ExternalLogin)
    (t : CookieInput TokenLogin) (now : Timestamp) : SessionTriple :=
  validateSession (decodeComponent u) (decodeComponent e) (decodeComponent t) now

/-! ## Session cookie configuration and encoding
(`src/auth/auth_session.rs`, lines 51-138 and 236-293) -/

/-- A URL as far as this core inspects it (`url::Url`): an optional
domain component and a path. -/
structure UrlM where
  domain : Option String
  path : String
deriving DecidableEq, Repr

/-- An opaque cookie signing key (`axum_extra ... cookie::Key`); treated
as a black box. -/
abbrev Key := String

/-- `AuthSessionConfig` (auth_service.rs, lines 49-58). -/
structure AuthSessionConfig where
  cookie_name_suffix : Option String
  session_secret : String
  external_login_secret : String
  token_login_secret : String
  session_max_duration : Nat
  token_max_duration : Nat
deriving DecidableEq, Repr

/-- `AuthSessionError` (auth_session.rs, lines 51-61). -/
inductive AuthSessionError
  | MissingHomeDomain
  | InvalidSecret (msg : String)
  | MissingDomain
  | InvalidApiDomain
deriving DecidableEq, Repr

/-- `CookieSettings` (auth_session.rs, lines 63-69). -/
structure CookieSettings where
  name : String
  secret : Key
  domain : String
  path : String
deriving DecidableEq, Repr

/-- `AuthSessionMeta` (auth_session.rs, lines 72-77). -/
structure AuthSessionMeta where
  user : CookieSettings
  external_login : CookieSettings
  token_login : CookieSettings
deriving DecidableEq, Repr

/-- Rust's `str::ends_with` on the domain strings
(auth_session.rs, line 85): a plain suffix test on the characters, with
no domain-label boundary. (Defined over the character list so that it is
kernel-computable; on domain names this agrees with byte-level suffix.) -/
def strEndsWith (s p : String) : Bool :=
  p.data.isSuffixOf s.data

/-- `AuthSessionMeta::new` (auth_session.rs, lines 80-133). The base64
decode plus `Key::try_from` pipeline applied to each secret is an external
collaborator, passed in as `decode_key`; a failure message from it is
wrapped in `InvalidSecret` exactly as the source wraps the two error
cases. -/
def AuthSessionMeta.new (decode_key : String → Except String Key)
    (home_url auth_base : UrlM) (config : AuthSessionConfig) :
    Except AuthSessionError AuthSessionMeta := do
  let cookie_name_suffix := config.cookie_name_suffix.getD ""
  let home_domain ← match home_url.domain with
    | some d => pure d
    | none => throw AuthSessionError.MissingHomeDomain
  let auth_domain ← match auth_base.domain with
    | some d => pure d
    | none => throw AuthSessionError.MissingDomain
  let auth_path := auth_base.path
  if ¬ strEndsWith auth_domain home_domain then
    throw AuthSessionError.InvalidApiDomain
  let token_login ← do
    let secret ← match decode_key config.token_login_secret with
      | .ok k => pure k
      | .error e => throw (AuthSessionError.InvalidSecret e)
    pure (CookieSettings.mk ("tid" ++ cookie_name_suffix) secret auth_domain auth_path)
  let user ← do
    let secret ← match decode_key config.session_secret with
      | .ok k => pure k
      | .error e => throw (AuthSessionError.InvalidSecret e)
    pure (CookieSettings.mk ("sid" ++ cookie_name_suffix) secret home_domain "/")
  let external_login ← do
    let secret ← match decode_key config.external_login_secret with
      | .ok k => pure k
      | .error e => throw (AuthSessionError.InvalidSecret e)
    pure (CookieSettings.mk ("eid" ++ cookie_name_suffix) secret auth_domain auth_path)
  pure (AuthSessionMeta.mk user external_login token_login)

/-- Cookie expiration attribute (`axum_extra ... cookie::Expiration`):
either a browser-session cookie or an absolute expiry instant. -/
inductive Expiration
  | session
  | dateTime (t : Timestamp)
deriving DecidableEq, Repr

/-- One emitted `Set-Cookie` directive, with the attributes the source
sets. `data = none` models the deletion cookie emitted for an absent
component. -/
structure CookieOut (α : Type) where
  name : String
  data : Option α
  expires : Expiration
  domain : String
  path : String
  secure : Bool
  http_only : Bool
  same_site_lax : Bool
deriving DecidableEq, Repr

/-- `create_jar` (auth_session.rs, lines 236-259): a present component is
serialized with the requested expiration; an absent one becomes a cookie
expiring one day in the past. Both get `Secure`, `HttpOnly`,
`SameSite=Lax` and the configured domain and path. -/
def create_jar {α : Type} (settings : CookieSettings) (data : Option α)
    (expiration : Expiration) (now : Timestamp) : CookieOut α :=
  match data with
  | some d =>
      CookieOut.mk settings.name (some d) expiration settings.domain settings.path
        true true true
  | none =>
      CookieOut.mk settings.name none (Expiration.dateTime (now - 86400))
        settings.domain settings.path true true true

/-- `AuthSession::into_response_parts` (auth_session.rs, lines 267-292):
the user and external-login cookies are emitted with `Expiration::Session`;
the token cookie's expiration is the token's `expires` (or `now` when the
token is absent). -/
def into_response_parts (meta : AuthSessionMeta) (s : SessionTriple)
    (now : Timestamp) :
    CookieOut CurrentUser × CookieOut ExternalLogin × CookieOut TokenLogin :=
  let token_expiration :=
    Expiration.dateTime ((s.token_login.map (fun t => t.expires)).getD now)
  ( create_jar meta.user s.user Expiration.session now
  , create_jar meta.external_login s.external_login Expiration.session now
  , create_jar meta.token_login s.token_login token_expiration now )

/-! ## Provider callback handlers
(`src/auth/oauth2/page_oauth2_auth.rs`, `src/auth/oidc/page_oidc_auth.rs`) -/

/-- `AuthError` variants reachable from the callback handlers. -/
inductive AuthError
  | MissingExternalLogin
  | InvalidCSRF
  | MissingNonce
  | FailedExternalUserInfo
  | LogoutRequired
deriving DecidableEq, Repr

/-- The normalized external user record
(`{provider, provider_id, name?, email?}`). -/
structure ExternalUserInfo where
  provider : String
  provider_id : String
  name : Option String
  email : Option String
deriving DecidableEq, Repr

/-- `RequestParams` of the callback pages: the provider-returned
authorization `code` and `state` query parameters. -/
structure RequestParams where
  code : String
  state : String
deriving DecidableEq, Repr

/-- An OAuth2 token response; only the access token is consumed. -/
structure OAuth2TokenResp where
  access_token : String
deriving DecidableEq, Repr

/-- An OIDC token response; only the optional identity token is
consumed. The identity token itself is opaque to this core. -/
structure OIDCTokenResp where
  id_token : Option String
deriving DecidableEq, Repr

/-- The identity-token claims consumed by `page_oidc_auth`:
subject, nickname and email. -/
structure IdTokenClaims where
  subject : String
  nickname : Option String
  email : Option String
deriving DecidableEq, Repr

/-- The observable outcome of a callback handler: which render/redirect
the `AuthServiceState` page helper was invoked with. -/
inductive PageOutcome
  | errorPage (e : AuthError) (error_url : Option String)
  | internalError (error_url : Option String)
  | externalLink (provider provider_id : String) (target_url error_url : Option String)
  | externalLoginPage (info : ExternalUserInfo) (target_url error_url : Option String)
      (remember_me : Bool)
deriving DecidableEq, Repr

/-- An `AuthPage` result: the chosen outcome together with the auth
session the page was handed (whose cookies it re-serializes). -/
structure AuthPage where
  outcome : PageOutcome
  session : SessionTriple
deriving DecidableEq, Repr

/-- `page_oauth2_auth` (page_oauth2_auth.rs, lines 19-95). The code
exchange (`exchange code pkce_verifier`) and the user-info endpoint
(`get_user_info access_token`) are external collaborators passed as
oracles; everything else is transcribed from the source, including the
unconditional `auth_session.external_login.take()`. This function is the
branch logic run on the taken flow state `el`, in source order. -/
def page_oauth2_auth_outcome (exchange : String → String → Except String OAuth2TokenResp)
    (get_user_info : String → Except Unit ExternalUserInfo)
    (provider : String) (query : RequestParams) (el : ExternalLogin) : PageOutcome :=
  if el.csrf_state ≠ query.state then
    PageOutcome.errorPage AuthError.InvalidCSRF el.error_url
  else
    match exchange query.code el.pkce_code_verifier with
    | .error _ => PageOutcome.internalError el.error_url
    | .ok token =>
      match get_user_info token.access_token with
      | .error _ => PageOutcome.errorPage AuthError.FailedExternalUserInfo el.error_url
      | .ok info =>
        if el.linked_user.isSome then
          PageOutcome.externalLink provider info.provider_id el.target_url el.error_url
        else
          PageOutcome.externalLoginPage info el.target_url el.error_url el.remember_me

/-- The handler proper: every return path of the Rust function carries the
session after the unconditional `external_login.take()`. -/
def page_oauth2_auth (exchange : String → String → Except String OAuth2TokenResp)
    (get_user_info : String → Except Unit ExternalUserInfo)
    (provider : String) (query : RequestParams) (auth_session : SessionTriple) :
    AuthPage :=
  let session := SessionTriple.mk auth_session.user none auth_session.token_login
  match auth_session.external_login with
  | none => AuthPage.mk (PageOutcome.errorPage AuthError.MissingExternalLogin none) session
  | some el =>
      AuthPage.mk (page_oauth2_auth_outcome exchange get_user_info provider query el) session

/-- `page_oidc_auth` (page_oidc_auth.rs, lines 18-112). The code exchange
and the identity-token claim verification
(`id_token.claims(verifier, nonce)`) are oracles; note the source checks
the stored nonce before the CSRF state. This function is the branch logic
run on the taken flow state `el`, in source order. -/
def page_oidc_auth_outcome (exchange : String → String → Except String OIDCTokenResp)
    (claims_verify : String → String → Option IdTokenClaims)
    (provider : String) (query : RequestParams) (el : ExternalLogin) : PageOutcome :=
  match el.nonce with
  | none => PageOutcome.errorPage AuthError.MissingNonce el.error_url
  | some nonce =>
    if el.csrf_state ≠ query.state then
      PageOutcome.errorPage AuthError.InvalidCSRF el.error_url
    else
      match exchange query.code el.pkce_code_verifier with
      | .error _ => PageOutcome.internalError el.error_url
      | .ok token =>
        match token.id_token.bind (fun idt => claims_verify idt nonce) with
        | none => PageOutcome.errorPage AuthError.FailedExternalUserInfo el.error_url
        | some claims =>
          let info := ExternalUserInfo.mk provider claims.subject claims.nickname claims.email
          if el.linked_user.isSome then
            PageOutcome.externalLink provider info.provider_id el.target_url el.error_url
          else
            PageOutcome.externalLoginPage info el.target_url el.error_url el.remember_me

/-- The handler proper: every return path of the Rust function carries the
session after the unconditional `external_login.take()`. -/
def page_oidc_auth (exchange : String → String → Except String OIDCTokenResp)
    (claims_verify : String → String → Option IdTokenClaims)
    (provider : String) (query : RequestParams) (auth_session : SessionTriple) :
    AuthPage :=
  let session := SessionTriple.mk auth_session.user none auth_session.token_login
  match auth_session.external_login with
  | none => AuthPage.mk (PageOutcome.errorPage AuthError.MissingExternalLogin none) session
  | some el =>
      AuthPage.mk (page_oidc_auth_outcome exchange claims_verify provider query el) session

/-! ## Identity store (`src/db/identity_manager.rs`) -/

/-- `IdentityKind` (identity_manager.rs, lines 16-20). -/
inductive IdentityKind
  | user
  | studio
deriving DecidableEq, Repr

/-- `IdentityKind::to_sql` (identity_manager.rs, lines 22-33). -/
def IdentityKind.toSql : IdentityKind → Int
  | .user => 1
  | .studio => 2

/-- `IdentityKind::from_sql` (identity_manager.rs, lines 35-46). -/
def IdentityKind.fromSql (v : Int) : Except String IdentityKind :=
  if v = 1 then .ok .user
  else if v = 2 then .ok .studio
  else .error "Invalid value for IdentityKind"

/-- `Identity` (identity_manager.rs, lines 50-57). -/
structure Identity where
  user_id : Uuid
  kind : IdentityKind
  name : String
  email : Option String
  is_email_confirmed : Bool
  creation : Timestamp
deriving DecidableEq, Repr

/-- `ExternalLoginInfo` (identity_manager.rs, lines 72-76). -/
structure ExternalLoginInfo where
  provider : String
  provider_id : String
deriving DecidableEq, Repr

/-- A Postgres value as consumed through `tokio_postgres::Row`. -/
inductive PGValue
  | uuid (v : Uuid)
  | int2 (v : Int)
  | varchar (v : String)
  | nullValue
  | boolean (v : Bool)
  | timestamptz (v : Timestamp)
deriving DecidableEq, Repr

/-- A result row: the list of column values in `SELECT` order. -/
abbrev Row := List PGValue

/-- `row.try_get(i)` at a UUID column: fails on a missing column or on a
type mismatch, as `tokio_postgres` does. -/
def tryGetUuid (r : Row) (i : Nat) : Except String Uuid :=
  match r.get? i with
  | some (.uuid v) => .ok v
  | some _ => .error "column type mismatch"
  | none => .error "column index out of range"

/-- `row.try_get(i)` at an `INT2` column decoded as `IdentityKind`. -/
def tryGetKind (r : Row) (i : Nat) : Except String IdentityKind :=
  match r.get? i with
  | some (.int2 v) => IdentityKind.fromSql v
  | some _ => .error "column type mismatch"
  | none => .error "column index out of range"

/-- `row.try_get(i)` at a non-null `VARCHAR` column. -/
def tryGetVarchar (r : Row) (i : Nat) : Except String String :=
  match r.get? i with
  | some (.varchar v) => .ok v
  | some _ => .error "column type mismatch"
  | none => .error "column index out of range"

/-- `row.try_get(i)` at a nullable `VARCHAR` column (`Option<String>`). -/
def tryGetOptVarchar (r : Row) (i : Nat) : Except String (Option String) :=
  match r.get? i with
  | some (.varchar v) => .ok (some v)
  | some .nullValue => .ok none
  | some _ => .error "column type mismatch"
  | none => .error "column index out of range"

/-- `row.try_get(i)` at a boolean column. -/
def tryGetBool (r : Row) (i : Nat) : Except String Bool :=
  match r.get? i with
  | some (.boolean v) => .ok v
  | some _ => .error "column type mismatch"
  | none => .error "column index out of range"

/-- `row.try_get(i)` at a timestamp column. -/
def tryGetTimestamp (r : Row) (i : Nat) : Except String Timestamp :=
  match r.get? i with
  | some (.timestamptz v) => .ok v
  | some _ => .error "column type mismatch"
  | none => .error "column index out of range"

/-- `Identity::from_row` (identity_manager.rs, lines 60-69): reads the six
columns `user_id, kind, name, email, is_email_confirmed, creation` at
indices 0-5. -/
def from_row (r : Row) : Except String Identity := do
  let user_id ← tryGetUuid r 0
  let kind ← tryGetKind r 1
  let name ← tryGetVarchar r 2
  let email ← tryGetOptVarchar r 3
  let is_email_confirmed ← tryGetBool r 4
  let creation ← tryGetTimestamp r 5
  pure (Identity.mk user_id kind name email is_email_confirmed creation)

/-- The row shape produced by the `Find*` prepared statements
(identity_manager.rs, lines 135-159):
`SELECT user_id, kind, name, email, email_confirmed, created`. -/
def findSelectRow (i : Identity) : Row :=
  [ .uuid i.user_id, .int2 i.kind.toSql, .varchar i.name
  , (match i.email with | some e => .varchar e | none => .nullValue)
  , .boolean i.is_email_confirmed, .timestamptz i.creation ]

/-- The row shape produced by `IdentityManager::search`
(identity_manager.rs, line 320):
`SELECT user_id, kind, name, created FROM identities` — four columns. -/
def searchSelectRow (i : Identity) : Row :=
  [ .uuid i.user_id, .int2 i.kind.toSql, .varchar i.name
  , .timestamptz i.creation ]

/-- `SearchIdentityOrder` (identity_manager.rs, lines 101-106): the chosen
ordering together with an optional exclusive keyset cursor. -/
inductive SearchIdentityOrder
  | userId (start : Option Uuid)
  | email (start : Option (String × Uuid))
  | name (start : Option (String × Uuid))
deriving DecidableEq, Repr

/-- `SearchIdentity` (identity_manager.rs, lines 108-116). -/
structure SearchIdentity where
  order : SearchIdentityOrder
  count : Option Nat
  user_ids : Option (List Uuid)
  emails : Option (List String)
  names : Option (List String)
deriving DecidableEq, Repr

/-- The conjunction of the `= ANY(..)` filters added by `search`
(identity_manager.rs, lines 322-332); a SQL `email = ANY(..)` comparison
is false on a NULL email. -/
def matchesFilters (s : SearchIdentity) (i : Identity) : Bool :=
  (match s.user_ids with | none => true | some l => l.contains i.user_id) &&
  (match s.names with | none => true | some l => l.contains i.name) &&
  (match s.emails with
    | none => true
    | some l => match i.email with | some e => l.contains e | none => false)

/-- Strict string ordering as the relational collation compares text
keys: lexicographic on the character sequence (kernel-computable; on
ASCII this agrees with byte-wise comparison). -/
def strLt (a b : String) : Bool :=
  decide (a.data < b.data)

/-- The keyset-cursor condition added by `search`
(identity_manager.rs, lines 334-358), reading the SQL comparison
`(key > $1 OR (key == $1 AND user_id > $2))` with `==` as equality; a
NULL email compares false. -/
def keysetCond (o : SearchIdentityOrder) (i : Identity) : Bool :=
  match o with
  | .userId none => true
  | .userId (some u) => decide (u < i.user_id)
  | .email none => true
  | .email (some (e, u)) =>
      match i.email with
      | some ie => strLt e ie || (e == ie && decide (u < i.user_id))
      | none => false
  | .name none => true
  | .name (some (n, u)) =>
      strLt n i.name || (n == i.name && decide (u < i.user_id))

/-- The `ORDER BY` comparator built by `search`: the chosen key first and
`user_id` always appended as the secondary key (identity_manager.rs,
lines 347, 356, 359); ascending, with NULL emails last as Postgres
defaults. -/
def orderLe (o : SearchIdentityOrder) (a b : Identity) : Bool :=
  match o with
  | .userId _ => decide (a.user_id ≤ b.user_id)
  | .email _ =>
      match a.email, b.email with
      | some ea, some eb =>
          strLt ea eb || (ea == eb && decide (a.user_id ≤ b.user_id))
      | some _, none => true
      | none, some _ => false
      | none, none => decide (a.user_id ≤ b.user_id)
  | .name _ =>
      strLt a.name b.name || (a.name == b.name && decide (a.user_id ≤ b.user_id))

/-- Insert into a sorted list (auxiliary for the `ORDER BY` model). -/
def insertSorted {α : Type} (le : α → α → Bool) (a : α) : List α → List α
  | [] => [a]
  | b :: bs => if le a b then a :: b :: bs else b :: insertSorted le a bs

/-- Sorting model for SQL `ORDER BY`: insertion sort by the given
comparator (the comparator built by `search` is total, so any sort
realizes the same result order). -/
def sortByKeys {α : Type} (le : α → α → Bool) : List α → List α
  | [] => []
  | a :: as => insertSorted le a (sortByKeys le as)

/-- The `LIMIT` computed by `search` (identity_manager.rs, line 361):
`usize::min(MAX_COUNT, search.count.unwrap_or(MAX_COUNT))` with
`MAX_COUNT = 100`. -/
def searchLimit (count : Option Nat) : Nat :=
  Nat.min 100 (count.getD 100)

/-- The relational semantics of the query issued by `IdentityManager::search`
(identity_manager.rs, lines 312-366) over a table state `db`: apply the
`WHERE` conjunction (filters plus keyset cursor), the `ORDER BY`, and the
`LIMIT`, yielding the matching identities in result order. -/
def searchQueryIdentities (db : List Identity) (s : SearchIdentity) : List Identity :=
  ((sortByKeys (orderLe s.order)
      (db.filter (fun i => matchesFilters s i && keysetCond s.order i))).take
    (searchLimit s.count))

/-- The rows the search query returns to the client: each matching
identity projected through the four-column `SELECT` list. -/
def searchQueryRows (db : List Identity) (s : SearchIdentity) : List Row :=
  (searchQueryIdentities db s).map searchSelectRow

/-- `rows.into_iter().map(from_row).collect::<Result<Vec<_>, _>>()`
(identity_manager.rs, lines 368-371): decode each row, failing on the
first row that does not decode. -/
def decodeRows : List Row → Except String (List Identity)
  | [] => .ok []
  | r :: rs => do
      let i ← from_row r
      let rest ← decodeRows rs
      pure (i :: rest)

/-- `IdentityManager::search` end to end (identity_manager.rs, lines
312-373): run the query and decode every returned row with
`Identity::from_row`. -/
def search (db : List Identity) (s : SearchIdentity) : Except String (List Identity) :=
  decodeRows (searchQueryRows db s)

/-- One row of the `external_logins` table. -/
structure LinkRow where
  user_id : Uuid
  provider : String
  provider_id : String
  linked : Timestamp
deriving DecidableEq, Repr

/-- The relational store state: the `identities` and `external_logins`
tables. -/
structure DbState where
  identities : List Identity
  links : List LinkRow
deriving DecidableEq, Repr

/-- A Postgres command error: a named unique-constraint violation,
or anything else. -/
inductive PgErr
  | constraintViolation (table index : String)
  | other (msg : String)
deriving DecidableEq, Repr

/-- `PGErrorChecks::is_constraint(table, index)` on a command error. -/
def PgErr.is_constraint (e : PgErr) (table index : String) : Bool :=
  match e with
  | .constraintViolation t i => t == table && i == index
  | .other _ => false

/-- The semantics of the `InsertIdentity` prepared statement
(identity_manager.rs, lines 118-122) run against a transaction-local
table state: `INSERT INTO identities .. VALUES ($1, $2, now(), $3, $4)
RETURNING created`, with the primary key and the `idx_name` / `idx_email`
unique indexes of the schema. -/
def insertIdentityStmt (tx : DbState) (user_id : Uuid) (kind : IdentityKind)
    (name : String) (email : Option String) (now : Timestamp) :
    Except PgErr (Timestamp × DbState) :=
  if tx.identities.any (fun i => i.user_id == user_id) then
    .error (.constraintViolation "identities" "identities_pkey")
  else if tx.identities.any (fun i => i.name == name) then
    .error (.constraintViolation "identities" "idx_name")
  else if (match email with
      | some e => tx.identities.any (fun i => i.email == some e)
      | none => false) then
    .error (.constraintViolation "identities" "idx_email")
  else
    .ok (now, DbState.mk
      (tx.identities ++ [Identity.mk user_id kind name email false now]) tx.links)

/-- The semantics of the `InsertExternalLogin` prepared statement
(identity_manager.rs, lines 124-128): `INSERT INTO external_logins ..`,
with the `idx_provider_provider_id` composite unique index. -/
def insertExternalLoginStmt (tx : DbState) (user_id : Uuid)
    (provider provider_id : String) (now : Timestamp) : Except PgErr DbState :=
  if tx.links.any (fun l => l.provider == provider && l.provider_id == provider_id) then
    .error (.constraintViolation "external_logins" "idx_provider_provider_id")
  else
    .ok (DbState.mk tx.identities (tx.links ++ [LinkRow.mk user_id provider provider_id now]))

/-- `IdentityError` (identity_manager.rs, lines 78-90). -/
inductive IdentityError
  | UserIdConflict
  | NameConflict
  | LinkEmailConflict
  | LinkProviderConflict
  | DBError (e : PgErr)
deriving DecidableEq, Repr

/-- `IdentityManager::create_user` (identity_manager.rs, lines 204-278).
The transaction starts as a snapshot of the store; each error arm that
rolls back (explicitly, or implicitly by dropping the transaction on the
generic-error arms) returns the untouched pre-state, and only the final
`commit` publishes the transaction-local state. The result is the
returned `Result` paired with the store state after the call. -/
def create_user (db : DbState) (user_id : Uuid) (user_name : String)
    (email : Option String) (external_login : Option ExternalLoginInfo)
    (now : Timestamp) : Except IdentityError Identity × DbState :=
  match insertIdentityStmt db user_id IdentityKind.user user_name email now with
  | .error err =>
      if err.is_constraint "identities" "identities_pkey" then
        (.error IdentityError.UserIdConflict, db)
      else if err.is_constraint "identities" "idx_name" then
        (.error IdentityError.NameConflict, db)
      else if err.is_constraint "identities" "idx_email" then
        (.error IdentityError.LinkEmailConflict, db)
      else
        (.error (IdentityError.DBError err), db)
  | .ok (created_at, tx1) =>
    match external_login with
    | some ext =>
      match insertExternalLoginStmt tx1 user_id ext.provider ext.provider_id now with
      | .error err =>
          if err.is_constraint "external_logins" "idx_provider_provider_id" then
            (.error IdentityError.LinkProviderConflict, db)
          else
            (.error (IdentityError.DBError err), db)
      | .ok tx2 =>
          (.ok (Identity.mk user_id IdentityKind.user user_name email false created_at), tx2)
    | none =>
        (.ok (Identity.mk user_id IdentityKind.user user_name email false created_at), tx1)

/-- Spec-side model of CreateUser, written from the words of §4.3: the
conflict conditions are read directly off the pre-state, each conflict
leaves the store untouched, and on success the identity row and (when
given) the link row are both inserted. Used only to be compared with
`create_user`. -/
def createUserSpec (db : DbState) (user_id : Uuid) (user_name : String)
    (email : Option String) (external_login : Option ExternalLoginInfo)
    (now : Timestamp) : Except IdentityError Identity × DbState :=
  if db.identities.any (fun i => i.user_id == user_id) then
    (.error IdentityError.UserIdConflict, db)
  else if db.identities.any (fun i => i.name == user_name) then
    (.error IdentityError.NameConflict, db)
  else if (match email with
      | some e => db.identities.any (fun i => i.email == some e)
      | none => false) then
    (.error IdentityError.LinkEmailConflict, db)
  else
    let row := Identity.mk user_id IdentityKind.user user_name email false now
    match external_login with
    | some ext =>
      if db.links.any (fun l => l.provider == ext.provider && l.provider_id == ext.provider_id) then
        (.error IdentityError.LinkProviderConflict, db)
      else
        (.ok row, DbState.mk (db.identities ++ [row])
          (db.links ++ [LinkRow.mk user_id ext.provider ext.provider_id now]))
    | none => (.ok row, DbState.mk (db.identities ++ [row]) db.links)

/-! ## Concrete fixtures used in closed statements -/

/-- A concrete session-cookie configuration. -/
def sampleConfig : AuthSessionConfig :=
  AuthSessionConfig.mk none "s1" "s2" "s3" 3600 3600

/-- A concrete cookie-settings bundle, as `AuthSessionMeta::new` would
build for home `example.com` and auth base `auth.example.com/auth/`. -/
def sampleMeta : AuthSessionMeta :=
  AuthSessionMeta.mk
    (CookieSettings.mk "sid" "key" "example.com" "/")
    (CookieSettings.mk "eid" "key" "auth.example.com" "/auth/")
    (CookieSettings.mk "tid" "key" "auth.example.com" "/auth/")

/-- A stub OIDC code-exchange oracle that always succeeds with an
identity token, standing for a valid authorization code. -/
def oidcExchangeStub : String → String → Except String OIDCTokenResp :=
  fun _ _ => .ok (OIDCTokenResp.mk (some "idtoken"))

/-- A stub claim-verification oracle that always accepts. -/
def oidcClaimsStub : String → String → Option IdTokenClaims :=
  fun _ _ => some (IdTokenClaims.mk "subject" none none)

/-- A stored external-login flow state carrying no nonce (as the OAuth2
login page stores it), with `csrf_state = "y"`. -/
def nonceLessFlow : ExternalLogin :=
  ExternalLogin.mk "pkce" "y" none none none false none

/-- A store state holding one identity: user 1 named `alice`. -/
def dbAlice : DbState :=
  DbState.mk [Identity.mk 1 IdentityKind.user "alice" none false 0] []

/-- Ten identities named `a1` .. `a10` with user ids 1 .. 10 (the
pagination example of the spec). -/
def tenIdentities : List Identity :=
  [ Identity.mk 1 IdentityKind.user "a1" none false 0
  , Identity.mk 2 IdentityKind.user "a2" none false 0
  , Identity.mk 3 IdentityKind.user "a3" none false 0
  , Identity.mk 4 IdentityKind.user "a4" none false 0
  , Identity.mk 5 IdentityKind.user "a5" none false 0
  , Identity.mk 6 IdentityKind.user "a6" none false 0
  , Identity.mk 7 IdentityKind.user "a7" none false 0
  , Identity.mk 8 IdentityKind.user "a8" none false 0
  , Identity.mk 9 IdentityKind.user "a9" none false 0
  , Identity.mk 10 IdentityKind.user "a10" none false 0 ]

/-- The spec's first pagination request: order by name, no cursor,
count 3, no filters. -/
def pageOneRequest : SearchIdentity :=
  SearchIdentity.mk (SearchIdentityOrder.name none) (some 3) none none none

/-! ## Helper lemmas -/

theorem validateSession_eq_steps (u : Option CurrentUser) (e : Option ExternalLogin)
    (t : Option TokenLogin) (now : Timestamp) :
    validateSession u e t now =
      SessionTriple.mk (applyUserMatch (applyTokenExpiry t now) u)
        (applyExternalMatch (applyUserMatch (applyTokenExpiry t now) u) e)
        (applyTokenExpiry t now) := by
  cases t with
  | none => rfl
  | some tl =>
    by_cases h : tl.expires < now <;>
      simp [validateSession, applyTokenExpiry, applyUserMatch, applyExternalMatch, h]

theorem applyTokenExpiry_some (t : Option TokenLogin) (now : Timestamp)
    (tl : TokenLogin) (h : applyTokenExpiry t now = some tl) :
    t = some tl ∧ ¬ tl.expires < now := by
  cases t with
  | none => exact absurd h (by simp [applyTokenExpiry])
  | some tt =>
    by_cases hx : tt.expires < now
    · exact absurd h (by simp [applyTokenExpiry, hx])
    · simp [applyTokenExpiry, hx] at h
      subst h
      exact ⟨rfl, hx⟩

theorem applyUserMatch_some (t : Option TokenLogin) (u : Option CurrentUser)
    (cu : CurrentUser) (h : applyUserMatch t u = some cu) :
    u = some cu ∧ t.map (fun x => x.user_id) = some cu.user_id := by
  unfold applyUserMatch at h
  split at h
  · exact absurd h (by simp)
  · rename_i hc
    rw [not_ne_iff] at hc
    refine ⟨h, ?_⟩
    rw [hc, h]
    rfl

theorem applyExternalMatch_some (u : Option CurrentUser) (e : Option ExternalLogin)
    (el : ExternalLogin) (h : applyExternalMatch u e = some el) :
    e = some el ∧
      el.linked_user.map (fun l => l.user_id) = u.map (fun x => x.user_id) := by
  unfold applyExternalMatch at h
  split at h
  · exact absurd h (by simp)
  · rename_i hc
    rw [not_ne_iff] at hc
    refine ⟨h, ?_⟩
    rw [← hc, h]
    rfl

/-! ## Claim theorems -/

/-- C1: session decode applies the three cross-consistency invariants in
fixed order after independent per-cookie decode — token expiry first,
then the token/user match, then the external-login/user match — and in
particular, for a token `{user_id: 1, expires: 0}` and user
`{user_id: 1}` decoded at `now = 1`, decode yields `token = None` and
`user = None`. -/
theorem C1_validation_order_and_example :
    (∀ (u : CookieInput CurrentUser) (e : CookieInput ExternalLogin)
        (t : CookieInput TokenLogin) (now : Timestamp),
      from_request_parts u e t now =
        SessionTriple.mk
          (applyUserMatch (applyTokenExpiry (decodeComponent t) now) (decodeComponent u))
          (applyExternalMatch
            (applyUserMatch (applyTokenExpiry (decodeComponent t) now) (decodeComponent u))
            (decodeComponent e))
          (applyTokenExpiry (decodeComponent t) now)) ∧
    from_request_parts (CookieInput.valid (CurrentUser.mk 1)) CookieInput.absent
        (CookieInput.valid (TokenLogin.mk 1 "token" 0)) 1 =
      SessionTriple.mk none none none := by
  constructor
  · intro u e t now
    exact validateSession_eq_steps (decodeComponent u) (decodeComponent e)
      (decodeComponent t) now
  · decide

/-- C7: session decode never fails — it is a total function; an absent,
malformed, or signature-invalid cookie decodes to `None` for that
component (and only a valid cookie decodes to its payload), and the three
components are decoded independently before validation. -/
theorem C7_decode_soft_fail :
    (∀ (α : Type), decodeComponent (CookieInput.absent : CookieInput α) = none) ∧
    (∀ (α : Type), decodeComponent (CookieInput.invalidSignature : CookieInput α) = none) ∧
    (∀ (α : Type), decodeComponent (CookieInput.malformed : CookieInput α) = none) ∧
    (∀ (α : Type) (a : α), decodeComponent (CookieInput.valid a) = some a) ∧
    (∀ (u : CookieInput CurrentUser) (e : CookieInput ExternalLogin)
        (t : CookieInput TokenLogin) (now : Timestamp),
      from_request_parts u e t now =
        validateSession (decodeComponent u) (decodeComponent e) (decodeComponent t) now) :=
  ⟨fun _ => rfl, fun _ => rfl, fun _ => rfl, fun _ _ => rfl, fun _ _ _ _ => rfl⟩

/-- C9: after decode and validation, a present user session implies a
present, unexpired token login with the same user id, and a present
external-login state has a `linked_user` user id (as an optional value)
equal to the user component's user id (as an optional value). -/
theorem C9_post_decode_invariant (u : Option CurrentUser) (e : Option ExternalLogin)
    (t : Option TokenLogin) (now : Timestamp) :
    (∀ cu, (validateSession u e t now).user = some cu →
      ∃ tl, (validateSession u e t now).token_login = some tl ∧
        tl.user_id = cu.user_id ∧ ¬ tl.expires < now) ∧
    (∀ el, (validateSession u e t now).external_login = some el →
      el.linked_user.map (fun l => l.user_id) =
        (validateSession u e t now).user.map (fun x => x.user_id)) := by
  rw [validateSession_eq_steps]
  constructor
  · intro cu hcu
    have h1 := applyUserMatch_some _ _ _ hcu
    cases htl : applyTokenExpiry t now with
    | none => rw [htl] at h1; exact absurd h1.2 (by simp)
    | some tl =>
      rw [htl] at h1
      have h2 := applyTokenExpiry_some t now tl htl
      refine ⟨tl, rfl, ?_, h2.2⟩
      have := h1.2
      simpa using this
  · intro el hel
    have h1 := applyExternalMatch_some _ _ _ hel
    exact h1.2

/-- Closed witness for C9: for user `{user_id: 1}` and token
`{user_id: 1, expires: 5}` decoded at `now = 1`, the surviving user
session comes with the surviving, unexpired, matching token login. -/
theorem C9_post_decode_invariant_witness :
    ∃ tl, (validateSession (some (CurrentUser.mk 1)) none
        (some (TokenLogin.mk 1 "token" 5)) 1).token_login = some tl ∧
      tl.user_id = (CurrentUser.mk 1).user_id ∧ ¬ tl.expires < 1 :=
  (C9_post_decode_invariant (some (CurrentUser.mk 1)) none
      (some (TokenLogin.mk 1 "token" 5)) 1).1 (CurrentUser.mk 1) (by decide)

/-- C6 counterexample: encode the session that results from a completed
`remember_me = true` login (user present, fresh token login). The emitted
user-session cookie still carries `Expiration::Session` — it is not
persistent — because `into_response_parts` passes `Expiration::Session`
for the user cookie unconditionally (auth_session.rs, line 287); no
remember-me information even reaches cookie encoding. -/
theorem C6_user_cookie_not_persistent_counterexample :
    (into_response_parts sampleMeta
        (SessionTriple.mk (some (CurrentUser.mk 7)) none
          (some (TokenLogin.mk 7 "token" 1000))) 0).1.expires =
      Expiration.session ∧
    (into_response_parts sampleMeta
        (SessionTriple.mk (some (CurrentUser.mk 7)) none
          (some (TokenLogin.mk 7 "token" 1000))) 0).1.expires ≠
      Expiration.dateTime 1000 := by
  exact ⟨rfl, by decide⟩

/-- C6 amended: whenever a user session is present, the encoded
user-session cookie has session lifetime — unconditionally, remember_me
notwithstanding; persistence beyond the browser session is carried only
by the token-login cookie, whose expiry equals the token's `expires`. -/
theorem C6_user_cookie_always_session_lifetime (meta : AuthSessionMeta)
    (s : SessionTriple) (now : Timestamp) :
    (∀ cu, s.user = some cu →
      (into_response_parts meta s now).1.expires = Expiration.session) ∧
    (∀ tl, s.token_login = some tl →
      (into_response_parts meta s now).2.2.expires = Expiration.dateTime tl.expires) := by
  constructor
  · intro cu hcu
    simp [into_response_parts, create_jar, hcu]
  · intro tl htl
    simp [into_response_parts, create_jar, htl]

/-- Closed witness for C6's amended theorem at a concrete session. -/
theorem C6_user_cookie_always_session_lifetime_witness :
    (into_response_parts sampleMeta
        (SessionTriple.mk (some (CurrentUser.mk 7)) none
          (some (TokenLogin.mk 7 "token" 1000))) 0).1.expires =
      Expiration.session :=
  (C6_user_cookie_always_session_lifetime sampleMeta
      (SessionTriple.mk (some (CurrentUser.mk 7)) none
        (some (TokenLogin.mk 7 "token" 1000))) 0).1 (CurrentUser.mk 7) rfl

/-- C4: constructing the session-cookie configuration validates the
domains at construction time: home `example.com` with auth
`auth.other.com` fails with `InvalidApiDomain` for every key oracle and
config; `auth.example.com` passes (and construction succeeds once the
secrets decode); a home or auth URL without a domain component is a
construction-time error; and in general, for well-formed URLs, the result
is `InvalidApiDomain` exactly when the auth domain is not a suffix of the
home domain. -/
theorem C4_domain_validation :
    (∀ (dk : String → Except String Key) (config : AuthSessionConfig),
      AuthSessionMeta.new dk (UrlM.mk (some "example.com") "/")
          (UrlM.mk (some "auth.other.com") "/auth/") config =
        Except.error AuthSessionError.InvalidApiDomain) ∧
    (∀ (config : AuthSessionConfig), ∃ m,
      AuthSessionMeta.new (fun _ => Except.ok "key") (UrlM.mk (some "example.com") "/")
          (UrlM.mk (some "auth.example.com") "/auth/") config =
        Except.ok m) ∧
    (∀ (dk : String → Except String Key) (hp : String) (auth : UrlM)
        (config : AuthSessionConfig),
      AuthSessionMeta.new dk (UrlM.mk none hp) auth config =
        Except.error AuthSessionError.MissingHomeDomain) ∧
    (∀ (dk : String → Except String Key) (hd hp ap : String)
        (config : AuthSessionConfig),
      AuthSessionMeta.new dk (UrlM.mk (some hd) hp) (UrlM.mk none ap) config =
        Except.error AuthSessionError.MissingDomain) ∧
    (∀ (dk : String → Except String Key) (hd hp ad ap : String)
        (config : AuthSessionConfig),
      AuthSessionMeta.new dk (UrlM.mk (some hd) hp) (UrlM.mk (some ad) ap) config =
          Except.error AuthSessionError.InvalidApiDomain ↔
        ¬ strEndsWith ad hd = true) := by
  refine ⟨fun dk config => rfl, fun config => ⟨_, rfl⟩, fun dk hp auth config => rfl,
    fun dk hd hp ap config => rfl, fun dk hd hp ad ap config => ?_⟩
  by_cases hse : strEndsWith ad hd = true
  · simp only [AuthSessionMeta.new, hse]
    cases h1 : dk config.token_login_secret <;>
      cases h2 : dk config.session_secret <;>
        cases h3 : dk config.external_login_secret <;>
          simp [h1, h2, h3, hse, bind, Except.bind, Functor.map, Except.map, throw,
            throwThe, MonadExceptOf.throw, pure, Except.pure]
  · simp only [AuthSessionMeta.new]
    simp [Bool.not_eq_true] at hse
    simp [hse, bind, Except.bind, pure, Except.pure, throw, throwThe, MonadExceptOf.throw]

/-- Closed witness for C4's conjunct with hypotheses: instantiating the
general suffix rule at home `example.com`, auth `auth.other.com`
reproduces the `InvalidApiDomain` failure. -/
theorem C4_domain_validation_witness :
    AuthSessionMeta.new (fun _ => Except.ok "key") (UrlM.mk (some "example.com") "/")
        (UrlM.mk (some "auth.other.com") "/auth/") sampleConfig =
      Except.error AuthSessionError.InvalidApiDomain :=
  (C4_domain_validation.2.2.2.2 (fun _ => Except.ok "key") "example.com" "/"
      "auth.other.com" "/auth/" sampleConfig).mpr (by decide)

/-- C10: the construction-time domain check is a plain string-suffix test
with no label boundary: `badexample.com` is not a subdomain of
`example.com` (it is a different registrable domain, and does not end in
`.example.com`), yet construction succeeds. -/
theorem C10_suffix_without_label_boundary :
    "badexample.com" ≠ "example.com" ∧
    strEndsWith "badexample.com" ".example.com" = false ∧
    (∃ m, AuthSessionMeta.new (fun _ => Except.ok "key")
        (UrlM.mk (some "example.com") "/") (UrlM.mk (some "badexample.com") "/auth/")
        sampleConfig = Except.ok m) := by
  exact ⟨by decide, by decide, ⟨_, rfl⟩⟩

/-- C3 counterexample: an OIDC callback with stored `csrf_state = "y"`
and returned `state = "x"` does **not** yield `InvalidCSRF` when the
stored flow carries no nonce (as a flow stored by the OAuth2 login page
does): the source checks the nonce before the CSRF state and returns
`MissingNonce`. The code-exchange and claim oracles here always succeed,
so the outcome is independent of code validity. -/
theorem C3_oidc_csrf_counterexample :
    (page_oidc_auth oidcExchangeStub oidcClaimsStub "provider"
        (RequestParams.mk "code" "x")
        (SessionTriple.mk none (some nonceLessFlow) none)).outcome =
      PageOutcome.errorPage AuthError.MissingNonce none ∧
    (page_oidc_auth oidcExchangeStub oidcClaimsStub "provider"
        (RequestParams.mk "code" "x")
        (SessionTriple.mk none (some nonceLessFlow) none)).outcome ≠
      PageOutcome.errorPage AuthError.InvalidCSRF none := by
  exact ⟨rfl, by decide⟩

/-- C3 amended: every provider callback (OAuth2 and OIDC) consumes and
clears `ExternalLoginState` unconditionally; with no stored flow it fails
with `MissingExternalLogin`; and a stored flow whose `csrf_state` differs
from the returned state yields `InvalidCSRF` independent of the
authorization code's validity — except that an OIDC callback checks the
stored nonce first, so the CSRF guarantee for OIDC holds for flows that
carry a nonce (a nonce-less flow yields `MissingNonce`, still with the
state cleared). -/
theorem C3_callback_consumes_flow_and_rejects_csrf :
    (∀ ex ui prov q (s : SessionTriple),
      (page_oauth2_auth ex ui prov q s).session.external_login = none) ∧
    (∀ ex cv prov q (s : SessionTriple),
      (page_oidc_auth ex cv prov q s).session.external_login = none) ∧
    (∀ ex ui prov q (s : SessionTriple), s.external_login = none →
      (page_oauth2_auth ex ui prov q s).outcome =
        PageOutcome.errorPage AuthError.MissingExternalLogin none) ∧
    (∀ ex cv prov q (s : SessionTriple), s.external_login = none →
      (page_oidc_auth ex cv prov q s).outcome =
        PageOutcome.errorPage AuthError.MissingExternalLogin none) ∧
    (∀ ex ui prov (q : RequestParams) (s : SessionTriple) el,
      s.external_login = some el → el.csrf_state ≠ q.state →
      (page_oauth2_auth ex ui prov q s).outcome =
        PageOutcome.errorPage AuthError.InvalidCSRF el.error_url) ∧
    (∀ ex cv prov (q : RequestParams) (s : SessionTriple) el n,
      s.external_login = some el → el.nonce = some n → el.csrf_state ≠ q.state →
      (page_oidc_auth ex cv prov q s).outcome =
        PageOutcome.errorPage AuthError.InvalidCSRF el.error_url) := by
  refine ⟨?_, ?_, ?_, ?_, ?_, ?_⟩
  · intro ex ui prov q s
    cases h : s.external_login <;> simp [page_oauth2_auth, h]
  · intro ex cv prov q s
    cases h : s.external_login <;> simp [page_oidc_auth, h]
  · intro ex ui prov q s h
    simp [page_oauth2_auth, h]
  · intro ex cv prov q s h
    simp [page_oidc_auth, h]
  · intro ex ui prov q s el h hne
    simp [page_oauth2_auth, h, page_oauth2_auth_outcome, hne]
  · intro ex cv prov q s el n h hn hne
    simp [page_oidc_auth, h, page_oidc_auth_outcome, hn, hne]

/-- Closed witness for C3's amended theorem: an OAuth2 callback with
stored `csrf_state = "y"` and returned `state = "x"` yields
`InvalidCSRF` (oracles always succeed, so the code was valid). -/
theorem C3_callback_witness :
    (page_oauth2_auth (fun _ _ => Except.ok (OAuth2TokenResp.mk "at"))
        (fun _ => Except.ok (ExternalUserInfo.mk "provider" "pid" none none)) "provider"
        (RequestParams.mk "code" "x")
        (SessionTriple.mk none (some nonceLessFlow) none)).outcome =
      PageOutcome.errorPage AuthError.InvalidCSRF none :=
  C3_callback_consumes_flow_and_rejects_csrf.2.2.2.2.1
    (fun _ _ => Except.ok (OAuth2TokenResp.mk "at"))
    (fun _ => Except.ok (ExternalUserInfo.mk "provider" "pid" none none)) "provider"
    (RequestParams.mk "code" "x") (SessionTriple.mk none (some nonceLessFlow) none)
    nonceLessFlow rfl (by decide)

/-- `create_user` computes exactly the spec-side CreateUser of §4.3:
conflicts are classified deterministically off the pre-state and roll the
transaction back, and success inserts the identity row plus the optional
link row. -/
theorem create_user_eq_spec (db : DbState) (user_id : Uuid) (user_name : String)
    (email : Option String) (ext : Option ExternalLoginInfo) (now : Timestamp) :
    create_user db user_id user_name email ext now =
      createUserSpec db user_id user_name email ext now := by
  unfold create_user createUserSpec insertIdentityStmt insertExternalLoginStmt
  by_cases h1 : db.identities.any (fun i => i.user_id == user_id) = true
  · simp +decide [h1, PgErr.is_constraint]
  · by_cases h2 : db.identities.any (fun i => i.name == user_name) = true
    · simp +decide [h1, h2, PgErr.is_constraint]
    · by_cases h3 : (match email with
          | some e => db.identities.any (fun i => i.email == some e)
          | none => false) = true
      · simp +decide [h1, h2, h3, PgErr.is_constraint]
      · cases ext with
        | none => simp [h1, h2, h3]
        | some l =>
          by_cases h4 : db.links.any
              (fun lr => lr.provider == l.provider && lr.provider_id == l.provider_id) = true
          · simp +decide [h1, h2, h3, h4, PgErr.is_constraint]
          · simp [h1, h2, h3, h4]

/-- Every error outcome of `create_user` leaves the store untouched:
each error arm of the source returns after rolling the transaction back
(explicitly for the mapped conflicts, implicitly by dropping it for the
generic arms). -/
theorem create_user_rollback (db : DbState) (user_id : Uuid) (user_name : String)
    (email : Option String) (ext : Option ExternalLoginInfo) (now : Timestamp)
    (e : IdentityError)
    (h : (create_user db user_id user_name email ext now).1 = Except.error e) :
    (create_user db user_id user_name email ext now).2 = db := by
  unfold create_user at h ⊢
  cases hins : insertIdentityStmt db user_id IdentityKind.user user_name email now with
  | error err =>
    simp only [hins] at h ⊢
    by_cases c1 : err.is_constraint "identities" "identities_pkey" = true
    · simp [c1]
    · by_cases c2 : err.is_constraint "identities" "idx_name" = true
      · simp [c1, c2]
      · by_cases c3 : err.is_constraint "identities" "idx_email" = true
        · simp [c1, c2, c3]
        · simp [c1, c2, c3]
  | ok p =>
    obtain ⟨ca, tx1⟩ := p
    simp only [hins] at h ⊢
    cases ext with
    | none => simp at h
    | some l =>
      cases hlink : insertExternalLoginStmt tx1 user_id l.provider l.provider_id now with
      | error err2 =>
        simp only [hlink] at h ⊢
        by_cases c4 : err2.is_constraint "external_logins" "idx_provider_provider_id" = true
        · simp [c4]
        · simp [c4]
      | ok tx2 =>
        simp only [hlink] at h ⊢
        simp at h

/-- C2: `create_user` runs as a single transaction inserting the identity
row and (when an external login is given) the link row; the uniqueness
violations map deterministically — identity primary key to
`UserIdConflict`, `idx_name` to `NameConflict`, `idx_email` to
`LinkEmailConflict`, `idx_provider_provider_id` to `LinkProviderConflict`
— and every error is returned with the transaction rolled back, so no
partial state (neither identity row nor link row) is ever persisted. -/
theorem C2_create_user_transactional (db : DbState) (user_id : Uuid)
    (user_name : String) (email : Option String) (ext : Option ExternalLoginInfo)
    (now : Timestamp) :
    create_user db user_id user_name email ext now =
      createUserSpec db user_id user_name email ext now ∧
    (∀ e, (create_user db user_id user_name email ext now).1 = Except.error e →
      (create_user db user_id user_name email ext now).2 = db) :=
  ⟨create_user_eq_spec db user_id user_name email ext now,
   fun e h => create_user_rollback db user_id user_name email ext now e h⟩

/-- Closed witness for C2: creating user id 1 again over a store that
already holds identity 1 yields `UserIdConflict` and leaves the store
unchanged. -/
theorem C2_create_user_transactional_witness :
    (create_user dbAlice 1 "bob" none none 5).1 =
      Except.error IdentityError.UserIdConflict ∧
    (create_user dbAlice 1 "bob" none none 5).2 = dbAlice := by
  refine ⟨rfl, ?_⟩
  exact (C2_create_user_transactional dbAlice 1 "bob" none none 5).2
    IdentityError.UserIdConflict rfl

/-- C5 (code bug): every row returned by the query that
`IdentityManager::search` issues fails to decode, because the `SELECT`
list has four columns (`user_id, kind, name, created`) while
`Identity::from_row` reads six (`email` at index 3, `email_confirmed` at
4, `created` at 5) — in particular `try_get(3)` hits the `created`
timestamp where an optional varchar is expected. The same decoder works
on the six-column rows of the `Find*` statements, pinning the slip on
`search`'s column list. Consequently, on the spec's own a1..a10 example
the whole call returns an error instead of the first page. -/
theorem C5_search_rows_never_decode :
    (∀ i, from_row (searchSelectRow i) = Except.error "column type mismatch") ∧
    (∀ i, from_row (findSelectRow i) = Except.ok i) ∧
    search tenIdentities pageOneRequest = Except.error "column type mismatch" := by
  refine ⟨?_, ?_, rfl⟩
  · intro i
    obtain ⟨uid, kind, name, email, conf, creation⟩ := i
    cases kind <;> rfl
  · intro i
    obtain ⟨uid, kind, name, email, conf, creation⟩ := i
    cases kind <;> cases email <;> rfl

/-- Successful row decoding preserves the row count. -/
theorem decodeRows_ok_length (rows : List Row) (l : List Identity)
    (h : decodeRows rows = Except.ok l) : l.length = rows.length := by
  induction rows generalizing l with
  | nil =>
    simp [decodeRows] at h
    subst h
    rfl
  | cons r rs ih =>
    unfold decodeRows at h
    cases hr : from_row r with
    | error e => rw [hr] at h; simp [bind, Except.bind] at h
    | ok i =>
      rw [hr] at h
      cases hd : decodeRows rs with
      | error e => rw [hd] at h; simp [bind, Except.bind] at h
      | ok l2 =>
        rw [hd] at h
        simp [bind, Except.bind, pure, Except.pure] at h
        subst h
        simp [ih l2 hd]

/-- C8: the number of rows a `search` call can return is bounded by
`min(requested_count, 100)`: the query's row list never exceeds the
limit, any successfully decoded result respects the same bound, and with
no requested count the bound is the absolute ceiling 100. -/
theorem C8_search_result_ceiling (db : List Identity) (s : SearchIdentity) :
    (searchQueryRows db s).length ≤ Nat.min (s.count.getD 100) 100 ∧
    (∀ l, search db s = Except.ok l → l.length ≤ Nat.min (s.count.getD 100) 100) ∧
    (s.count = none → (searchQueryRows db s).length ≤ 100) := by
  have hlen : (searchQueryRows db s).length ≤ searchLimit s.count := by
    simp only [searchQueryRows, List.length_map, searchQueryIdentities, List.length_take]
    exact Nat.min_le_left _ _
  have hmin : searchLimit s.count = Nat.min (s.count.getD 100) 100 := by
    simp [searchLimit, Nat.min_comm]
  refine ⟨hmin ▸ hlen, ?_, ?_⟩
  · intro l h
    unfold search at h
    have hl := decodeRows_ok_length _ _ h
    rw [hl]
    exact hmin ▸ hlen
  · intro hc
    have := hmin ▸ hlen
    rw [hc] at this
    simpa using this

/-- Closed witness for C8 at a concrete call: over the empty table the
query returns zero rows, decoding succeeds, and the bound holds. -/
theorem C8_search_result_ceiling_witness :
    ([] : List Identity).length ≤ Nat.min (pageOneRequest.count.getD 100) 100 :=
  (C8_search_result_ceiling [] pageOneRequest).2.1 [] rfl
